import Mathlib

/-!
Shallow embedding of the contract AnonymousCopyrightV2
(src/contracts/AnonymousCopyrightV2.sol) and proofs about its
verification / dispute state machines, escrow and timeout paths.

Modelling conventions:
* Addresses, wei amounts, timestamps and hash values are natural numbers
  (Solidity 0.8 checked arithmetic reverts on overflow, it never wraps,
  and no bound of the claims is near 2^256, so Nat addition is faithful).
* Solidity mappings are total functions with the zero record as default,
  which matches mapping semantics exactly.
* FHE handles (euint32 / euint64) are carried as the plaintext numbers
  they encrypt; the contract never computes on them locally, it only
  stores them and ships them to the decryption oracle, so the handle
  value itself is inert.  The keccak derived pseudo-random values
  (privacy multiplier, privacy nonce) and the oracle assigned request
  ids are environment inputs and enter as explicit parameters, with the
  range arithmetic of the source kept.
* The oracle callbacks receive the abi decoded cleartexts as parameters
  (a Bool for verification, two numbers for dispute resolution); the
  FHE.checkSignatures guard is the Boolean parameter sigOk, failing
  closed when false.
* Reverts are Except errors carrying one constructor per distinct
  require message; an error means the whole transaction is rolled back,
  so no state is returned with it.
* Outbound low-level calls (payable(x).call{value: v}) are recorded as
  CallRec values, each carrying a snapshot of the contract state at the
  moment the call is issued (this is what makes write-before-transfer
  ordering expressible).  The recipient is modelled as accepting the
  payment, i.e. the require(sent) guard passes.
* The noReentrancy modifier is modelled faithfully: the locked flag is
  required false on entry, is true in every mid-body state snapshot and
  is reset to false in the returned state.
-/

namespace AnonymousCopyrightV2

/-- Pointwise update of a mapping, mirroring a Solidity storage write. -/
def upd {α : Type} (m : Nat → α) (k : Nat) (v : α) : Nat → α :=
  fun i => if i = k then v else m i

-- ============ Constants ============

def MIN_REGISTRATION_FEE : Nat := 1000000000000000
def MAX_TITLE_LENGTH : Nat := 200
def MAX_CATEGORY_LENGTH : Nat := 100
def VERIFICATION_TIMEOUT : Nat := 3600
def DISPUTE_TIMEOUT : Nat := 86400
def MAX_DISPUTES_PER_WORK : Nat := 10
def DISPUTE_DEPOSIT : Nat := 5000000000000000
def PRIVACY_MULTIPLIER_MIN : Nat := 1000
def PRIVACY_MULTIPLIER_MAX : Nat := 9999
def UINT256_MAX : Nat := 2 ^ 256 - 1
def UINT64_MAX : Nat := 2 ^ 64 - 1

-- ============ Structs ============

structure OriginalWork where
  encryptedContentHash : Nat
  encryptedAuthorId : Nat
  privacyNonce : Nat
  registrant : Nat
  timestamp : Nat
  registrationFeeAmount : Nat
  verified : Bool
  disputed : Bool
  disputeCount : Nat
  workTitle : String
  category : String
deriving DecidableEq

structure DisputeRecord where
  challenger : Nat
  challengerContentHash : Nat
  timestamp : Nat
  depositAmount : Nat
  resolved : Bool
  winner : Nat
  decryptionRequestId : Nat
  requestTimestamp : Nat
deriving DecidableEq

structure AuthorProfile where
  encryptedAuthorId : Nat
  privacyMultiplier : Nat
  registered : Bool
  workCount : Nat
  totalDisputes : Nat
  wonDisputes : Nat
  registrationTime : Nat
deriving DecidableEq

structure VerificationRequest where
  requester : Nat
  workId : Nat
  requestId : Nat
  depositAmount : Nat
  requestTimestamp : Nat
  completed : Bool
  refunded : Bool
deriving DecidableEq

inductive DecryptionType where
  | Verification
  | DisputeResolution
deriving DecidableEq

structure PendingDecryption where
  workId : Nat
  disputeId : Nat
  decryptionType : DecryptionType
  initiator : Nat
  timestamp : Nat
deriving DecidableEq

/-- Zero value of a mapping slot for OriginalWork. -/
def OriginalWork.zero : OriginalWork :=
  ⟨0, 0, 0, 0, 0, 0, false, false, 0, "", ""⟩

/-- Zero value of a mapping slot for AuthorProfile. -/
def AuthorProfile.zero : AuthorProfile :=
  ⟨0, 0, false, 0, 0, 0, 0⟩

/-- Zero value of a mapping slot for VerificationRequest. -/
def VerificationRequest.zero : VerificationRequest :=
  ⟨0, 0, 0, 0, 0, false, false⟩

/-- Zero value of a mapping slot for PendingDecryption. -/
def PendingDecryption.zero : PendingDecryption :=
  ⟨0, 0, DecryptionType.Verification, 0, 0⟩

-- ============ Contract state ============

/-- All storage of the contract.  Mappings are total functions whose
value at an untouched key is the zero record, as in Solidity. -/
structure State where
  owner : Nat
  workCounter : Nat
  registrationFee : Nat
  paused : Bool
  isTesting : Bool
  platformFees : Nat
  works : Nat → OriginalWork
  disputes : Nat → List DisputeRecord
  authors : Nat → AuthorProfile
  authorWorks : Nat → List Nat
  verificationRequests : Nat → VerificationRequest
  pendingDecryptions : Nat → PendingDecryption
  pendingRefunds : Nat → Nat
  verificationRequestCounter : Nat
  locked : Bool

/-- One require message of the source per constructor. -/
inductive Err where
  | NotAuthorized            -- AC: Not authorized (onlyOwner and dispute party check)
  | ContractPaused           -- AC: Contract paused
  | AuthorNotRegistered      -- AC: Author not registered
  | InvalidWorkId            -- AC: Invalid work ID
  | ReentrantCall            -- AC: Reentrant call
  | FeeTooLow                -- AC: Fee too low
  | NoFeesToWithdraw         -- AC: No fees to withdraw
  | InvalidAddress           -- AC: Invalid address
  | AlreadyRegistered        -- AC: Already registered
  | InvalidAuthorId          -- AC: Invalid author ID
  | TitleRequired            -- AC: Title required
  | TitleTooLong             -- AC: Title too long
  | CategoryRequired         -- AC: Category required
  | CategoryTooLong          -- AC: Category too long
  | InsufficientFee          -- AC: Insufficient fee
  | InvalidContentHash       -- AC: Invalid content hash
  | WorkCounterOverflow      -- AC: Work counter overflow
  | VerificationDepositRequired -- AC: Verification deposit required
  | WorkNotFound             -- AC: Work not found
  | AlreadyProcessed         -- AC: Already processed
  | InsufficientDisputeDeposit  -- AC: Insufficient dispute deposit
  | CannotDisputeOwnWork     -- AC: Cannot dispute own work (spec name: SelfDispute)
  | MaxDisputesReached       -- AC: Max disputes reached (spec name: TooManyDisputes)
  | InvalidDisputeId         -- AC: Invalid dispute ID
  | DisputeAlreadyResolved   -- AC: Dispute already resolved
  | InvalidCallback          -- AC: Invalid callback
  | AlreadyResolved          -- AC: Already resolved
  | NotRequester             -- AC: Not requester
  | AlreadyCompleted         -- AC: Already completed
  | AlreadyRefunded          -- AC: Already refunded
  | TimeoutNotReached        -- AC: Timeout not reached
  | NotChallenger            -- AC: Not challenger
  | ResolutionNotRequested   -- AC: Resolution not requested
  | NoRefundAvailable        -- AC: No refund available (spec name: NoBalance)
  | UntrustedCallback        -- FHE.checkSignatures failure
  | TestingDisabled          -- AC: Testing disabled
  | ArrayOutOfBounds         -- Solidity array bounds panic
deriving DecidableEq

/-- One outbound low-level value transfer, with the contract state in
force at the moment the call is issued. -/
structure CallRec where
  stateAtCall : State
  toAddr : Nat
  amount : Nat

/-- Result of one external transaction: final state plus the outbound
value transfers it issued, in order. -/
abbrev Ret := Except Err (State × List CallRec)

-- ============ Admin functions ============

/-- Function pause of the source: onlyOwner, sets paused. -/
def pause (s : State) (sender : Nat) : Ret :=
  if sender ≠ s.owner then .error .NotAuthorized
  else .ok ({ s with paused := true }, [])

/-- Function unpause of the source: onlyOwner, clears paused. -/
def unpause (s : State) (sender : Nat) : Ret :=
  if sender ≠ s.owner then .error .NotAuthorized
  else .ok ({ s with paused := false }, [])

/-- Function setTesting of the source: onlyOwner, sets isTesting. -/
def setTesting (s : State) (sender : Nat) (enabled : Bool) : Ret :=
  if sender ≠ s.owner then .error .NotAuthorized
  else .ok ({ s with isTesting := enabled }, [])

/-- Function setRegistrationFee of the source: onlyOwner, new fee must be
at least MIN_REGISTRATION_FEE. -/
def setRegistrationFee (s : State) (sender newFee : Nat) : Ret :=
  if sender ≠ s.owner then .error .NotAuthorized
  else if ¬ MIN_REGISTRATION_FEE ≤ newFee then .error .FeeTooLow
  else .ok ({ s with registrationFee := newFee }, [])

/-- Function withdrawPlatformFees of the source: onlyOwner, noReentrancy;
zeroes platformFees before issuing the transfer. -/
def withdrawPlatformFees (s : State) (sender toAddr : Nat) : Ret :=
  if sender ≠ s.owner then .error .NotAuthorized
  else if s.locked then .error .ReentrantCall
  else
    let s0 := { s with locked := true }
    if ¬ 0 < s0.platformFees then .error .NoFeesToWithdraw
    else if toAddr = 0 then .error .InvalidAddress
    else
      let amount := s0.platformFees
      let s1 := { s0 with platformFees := 0 }
      .ok ({ s1 with locked := false }, [⟨s1, toAddr, amount⟩])

-- ============ Author registration ============

/-- Function registerAuthor of the source: whenNotPaused; the keccak
derived randomness enters as the seed parameter, with the range
reduction of the source kept. -/
def registerAuthor (s : State) (sender authorId seed now : Nat) : Ret :=
  if s.paused then .error .ContractPaused
  else if (s.authors sender).registered then .error .AlreadyRegistered
  else if ¬ 0 < authorId then .error .InvalidAuthorId
  else
    let randomMultiplier :=
      seed % (PRIVACY_MULTIPLIER_MAX - PRIVACY_MULTIPLIER_MIN + 1) + PRIVACY_MULTIPLIER_MIN
    let profile : AuthorProfile :=
      { encryptedAuthorId := authorId
        privacyMultiplier := randomMultiplier
        registered := true
        workCount := 0
        totalDisputes := 0
        wonDisputes := 0
        registrationTime := now }
    .ok ({ s with authors := upd s.authors sender profile }, [])

-- ============ Work registration ============

/-- Function registerWork of the source: onlyRegisteredAuthor then
whenNotPaused, then the body requires in source order; the keccak
derived privacy nonce enters as the seed parameter.  The full payment
msgValue is recorded in the work and added to platformFees. -/
def registerWork (s : State) (sender msgValue contentHash : Nat)
    (title category : String) (seed now : Nat) : Ret :=
  if ¬ (s.authors sender).registered then .error .AuthorNotRegistered
  else if s.paused then .error .ContractPaused
  else if ¬ 0 < title.utf8ByteSize then .error .TitleRequired
  else if ¬ title.utf8ByteSize ≤ MAX_TITLE_LENGTH then .error .TitleTooLong
  else if ¬ 0 < category.utf8ByteSize then .error .CategoryRequired
  else if ¬ category.utf8ByteSize ≤ MAX_CATEGORY_LENGTH then .error .CategoryTooLong
  else if ¬ s.registrationFee ≤ msgValue then .error .InsufficientFee
  else if ¬ 0 < contentHash then .error .InvalidContentHash
  else if ¬ s.workCounter < UINT256_MAX then .error .WorkCounterOverflow
  else
    let workId := s.workCounter + 1
    let nonce := seed % UINT64_MAX
    let work : OriginalWork :=
      { encryptedContentHash := contentHash
        encryptedAuthorId := (s.authors sender).encryptedAuthorId
        privacyNonce := nonce
        registrant := sender
        timestamp := now
        registrationFeeAmount := msgValue
        verified := false
        disputed := false
        disputeCount := 0
        workTitle := title
        category := category }
    let profile := s.authors sender
    .ok ({ s with
            workCounter := workId
            works := upd s.works workId work
            authorWorks := upd s.authorWorks sender (s.authorWorks sender ++ [workId])
            authors := upd s.authors sender { profile with workCount := profile.workCount + 1 }
            platformFees := s.platformFees + msgValue }, [])

-- ============ Verification request / callback ============

/-- Function requestVerifyWork of the source: validWorkId, whenNotPaused,
noReentrancy; the oracle assigned request id enters as a parameter. -/
def requestVerifyWork (s : State) (sender msgValue workId contentHashToVerify requestId now : Nat) : Ret :=
  if ¬ (0 < workId ∧ workId ≤ s.workCounter) then .error .InvalidWorkId
  else if s.paused then .error .ContractPaused
  else if s.locked then .error .ReentrantCall
  else
    let s0 := { s with locked := true }
    if ¬ MIN_REGISTRATION_FEE ≤ msgValue then .error .VerificationDepositRequired
    else if ¬ 0 < contentHashToVerify then .error .InvalidContentHash
    else if (s0.works workId).registrant = 0 then .error .WorkNotFound
    else
      let request : VerificationRequest :=
        { requester := sender
          workId := workId
          requestId := requestId
          depositAmount := msgValue
          requestTimestamp := now
          completed := false
          refunded := false }
      let pending : PendingDecryption :=
        { workId := workId
          disputeId := 0
          decryptionType := DecryptionType.Verification
          initiator := sender
          timestamp := now }
      .ok ({ s0 with
              verificationRequestCounter := s0.verificationRequestCounter + 1
              verificationRequests := upd s0.verificationRequests requestId request
              pendingDecryptions := upd s0.pendingDecryptions requestId pending
              locked := false }, [])

/-- Function verificationCallback of the source.  sigOk models
FHE.checkSignatures and isMatch the abi decoded cleartext.  Note the
source checks only request.completed, not request.refunded. -/
def verificationCallback (s : State) (requestId : Nat) (sigOk isMatch : Bool) : Ret :=
  if ¬ sigOk then .error .UntrustedCallback
  else
    let request := s.verificationRequests requestId
    if request.completed then .error .AlreadyProcessed
    else
      let s1 := { s with
        verificationRequests :=
          upd s.verificationRequests requestId { request with completed := true } }
      let s2 :=
        if isMatch then
          { s1 with works := upd s1.works request.workId
                      { s1.works request.workId with verified := true } }
        else s1
      let s3 :=
        if 0 < request.depositAmount then
          let credited :=
            upd s2.pendingRefunds request.requester
              (s2.pendingRefunds request.requester + request.depositAmount)
          { s2 with pendingRefunds := credited }
        else s2
      .ok (s3, [])

-- ============ Dispute filing / resolution ============

/-- Function fileDispute of the source: validWorkId, onlyRegisteredAuthor,
whenNotPaused, then the body requires in source order. -/
def fileDispute (s : State) (sender msgValue workId challengerContentHash now : Nat) : Ret :=
  if ¬ (0 < workId ∧ workId ≤ s.workCounter) then .error .InvalidWorkId
  else if ¬ (s.authors sender).registered then .error .AuthorNotRegistered
  else if s.paused then .error .ContractPaused
  else if ¬ DISPUTE_DEPOSIT ≤ msgValue then .error .InsufficientDisputeDeposit
  else if ¬ 0 < challengerContentHash then .error .InvalidContentHash
  else
    let work := s.works workId
    if work.registrant = sender then .error .CannotDisputeOwnWork
    else if ¬ work.disputeCount < MAX_DISPUTES_PER_WORK then .error .MaxDisputesReached
    else
      let record : DisputeRecord :=
        { challenger := sender
          challengerContentHash := challengerContentHash
          timestamp := now
          depositAmount := msgValue
          resolved := false
          winner := 0
          decryptionRequestId := 0
          requestTimestamp := 0 }
      let authors1 := upd s.authors sender
        { s.authors sender with totalDisputes := (s.authors sender).totalDisputes + 1 }
      let authors2 := upd authors1 work.registrant
        { authors1 work.registrant with totalDisputes := (authors1 work.registrant).totalDisputes + 1 }
      .ok ({ s with
              disputes := upd s.disputes workId (s.disputes workId ++ [record])
              works := upd s.works workId
                { work with disputed := true, disputeCount := work.disputeCount + 1 }
              authors := authors2 }, [])

/-- Function requestDisputeResolution of the source: validWorkId,
whenNotPaused; the oracle assigned request id enters as a parameter.
The source checks only that the dispute is not resolved — there is no
guard against a repeated resolution request. -/
def requestDisputeResolution (s : State) (sender workId disputeId requestId now : Nat) : Ret :=
  if ¬ (0 < workId ∧ workId ≤ s.workCounter) then .error .InvalidWorkId
  else if s.paused then .error .ContractPaused
  else
    -- require(_disputeId < disputes[_workId].length): none exactly when
    -- the index is out of range.
    match (s.disputes workId).get? disputeId with
    | none => .error .InvalidDisputeId
    | some dispute =>
      if dispute.resolved then .error .DisputeAlreadyResolved
      else if ¬ (sender = dispute.challenger ∨ sender = (s.works workId).registrant) then
        .error .NotAuthorized
      else
        let pending : PendingDecryption :=
          { workId := workId
            disputeId := disputeId
            decryptionType := DecryptionType.DisputeResolution
            initiator := sender
            timestamp := now }
        .ok ({ s with
                disputes := upd s.disputes workId
                  ((s.disputes workId).set disputeId
                    { dispute with decryptionRequestId := requestId, requestTimestamp := now })
                pendingDecryptions := upd s.pendingDecryptions requestId pending }, [])

/-- Function disputeResolutionCallback of the source: noReentrancy; sigOk
models FHE.checkSignatures, the two hashes are the abi decoded
cleartexts.  Winner policy exactly as in the source. -/
def disputeResolutionCallback (s : State) (requestId : Nat) (sigOk : Bool)
    (originalHash challengerHash : Nat) : Ret :=
  if s.locked then .error .ReentrantCall
  else if ¬ sigOk then .error .UntrustedCallback
  else
    let s0 := { s with locked := true }
    let pending := s0.pendingDecryptions requestId
    if pending.decryptionType ≠ DecryptionType.DisputeResolution then .error .InvalidCallback
    else
      let workId := pending.workId
      let disputeId := pending.disputeId
      match (s0.disputes workId).get? disputeId with
      | none => .error .ArrayOutOfBounds
      | some dispute =>
        if dispute.resolved then .error .AlreadyResolved
        else
          let work := s0.works workId
          let prizeAmount := dispute.depositAmount
          -- if (originalHash == challengerHash): earlier timestamp wins,
          -- the challenger branch also bumps wonDisputes; otherwise the
          -- original owner wins.  The pair carries (winner, authors).
          let wa : Nat × (Nat → AuthorProfile) :=
            if originalHash = challengerHash then
              if work.timestamp ≤ dispute.timestamp then
                (work.registrant, s0.authors)
              else
                (dispute.challenger,
                 upd s0.authors dispute.challenger
                   { s0.authors dispute.challenger with
                       wonDisputes := (s0.authors dispute.challenger).wonDisputes + 1 })
            else
              (work.registrant, s0.authors)
          let winner := wa.1
          let authors1 := wa.2
          let s1 := { s0 with
            authors := authors1
            disputes := upd s0.disputes workId
              ((s0.disputes workId).set disputeId
                { dispute with resolved := true, winner := winner }) }
          let s2 :=
            if 0 < prizeAmount then
              let credited := upd s1.pendingRefunds winner (s1.pendingRefunds winner + prizeAmount)
              { s1 with pendingRefunds := credited }
            else s1
          .ok ({ s2 with locked := false }, [])

-- ============ Timeout protection and refunds ============

/-- Function claimVerificationTimeout of the source: noReentrancy; marks
the request refunded and then transfers the deposit directly to the
caller. -/
def claimVerificationTimeout (s : State) (sender requestId now : Nat) : Ret :=
  if s.locked then .error .ReentrantCall
  else
    let s0 := { s with locked := true }
    let request := s0.verificationRequests requestId
    if request.requester ≠ sender then .error .NotRequester
    else if request.completed then .error .AlreadyCompleted
    else if request.refunded then .error .AlreadyRefunded
    else if ¬ request.requestTimestamp + VERIFICATION_TIMEOUT < now then
      .error .TimeoutNotReached
    else
      let s1 := { s0 with
        verificationRequests :=
          upd s0.verificationRequests requestId { request with refunded := true } }
      let refundAmount := request.depositAmount
      let calls := if 0 < refundAmount then [(⟨s1, sender, refundAmount⟩ : CallRec)] else []
      .ok ({ s1 with locked := false }, calls)

/-- Function claimDisputeTimeout of the source: noReentrancy; marks the
dispute resolved and transfers the deposit directly to the challenger. -/
def claimDisputeTimeout (s : State) (sender workId disputeId now : Nat) : Ret :=
  if s.locked then .error .ReentrantCall
  else
    let s0 := { s with locked := true }
    match (s0.disputes workId).get? disputeId with
    | none => .error .InvalidDisputeId
    | some dispute =>
      if dispute.challenger ≠ sender then .error .NotChallenger
      else if dispute.resolved then .error .AlreadyResolved
      else if dispute.decryptionRequestId = 0 then .error .ResolutionNotRequested
      else if ¬ dispute.requestTimestamp + DISPUTE_TIMEOUT < now then
        .error .TimeoutNotReached
      else
        let s1 := { s0 with
          disputes := upd s0.disputes workId
            ((s0.disputes workId).set disputeId { dispute with resolved := true }) }
        let refundAmount := dispute.depositAmount
        let calls := if 0 < refundAmount then [(⟨s1, sender, refundAmount⟩ : CallRec)] else []
        .ok ({ s1 with locked := false }, calls)

/-- Function withdrawRefund of the source: noReentrancy; zeroes the
pending balance, then issues the transfer (zero-before-transfer). -/
def withdrawRefund (s : State) (sender : Nat) : Ret :=
  if s.locked then .error .ReentrantCall
  else
    let s0 := { s with locked := true }
    let amount := s0.pendingRefunds sender
    if ¬ 0 < amount then .error .NoRefundAvailable
    else
      let s1 := { s0 with pendingRefunds := upd s0.pendingRefunds sender 0 }
      .ok ({ s1 with locked := false }, [⟨s1, sender, amount⟩])

-- ============ Test helpers of the source ============

/-- Function testingSimulateVerificationCallback of the source: onlyOwner,
requires isTesting; same body as verificationCallback without the
signature check. -/
def testingSimulateVerificationCallback (s : State) (sender requestId : Nat) (isMatch : Bool) : Ret :=
  if sender ≠ s.owner then .error .NotAuthorized
  else if ¬ s.isTesting then .error .TestingDisabled
  else
    let request := s.verificationRequests requestId
    if request.completed then .error .AlreadyProcessed
    else
      let s1 := { s with
        verificationRequests :=
          upd s.verificationRequests requestId { request with completed := true } }
      let s2 :=
        if isMatch then
          { s1 with works := upd s1.works request.workId
                      { s1.works request.workId with verified := true } }
        else s1
      let s3 :=
        if 0 < request.depositAmount then
          let credited :=
            upd s2.pendingRefunds request.requester
              (s2.pendingRefunds request.requester + request.depositAmount)
          { s2 with pendingRefunds := credited }
        else s2
      .ok (s3, [])

/-- Function testingSimulateDisputeCallback of the source: onlyOwner,
requires isTesting; resolves the dispute with the given winner and
credits that winner the deposit. -/
def testingSimulateDisputeCallback (s : State) (sender workId disputeId winner : Nat) : Ret :=
  if sender ≠ s.owner then .error .NotAuthorized
  else if ¬ s.isTesting then .error .TestingDisabled
  else match (s.disputes workId).get? disputeId with
  | none => .error .InvalidDisputeId
  | some dispute =>
    if dispute.resolved then .error .AlreadyResolved
    else
      let s1 := { s with
        disputes := upd s.disputes workId
          ((s.disputes workId).set disputeId { dispute with resolved := true, winner := winner }) }
      let s2 :=
        if 0 < dispute.depositAmount then
          let credited := upd s1.pendingRefunds winner (s1.pendingRefunds winner + dispute.depositAmount)
          { s1 with pendingRefunds := credited }
        else s1
      .ok (s2, [])

/-- Function markWorkAsVerified of the source: onlyOwner, validWorkId. -/
def markWorkAsVerified (s : State) (sender workId : Nat) : Ret :=
  if sender ≠ s.owner then .error .NotAuthorized
  else if ¬ (0 < workId ∧ workId ≤ s.workCounter) then .error .InvalidWorkId
  else
    .ok ({ s with works := upd s.works workId { s.works workId with verified := true } }, [])

-- ============ Whole external surface as one step function ============

/-- One state-changing external call of the contract, with its
environment supplied inputs. -/
inductive Op where
  | pauseOp (sender : Nat)
  | unpauseOp (sender : Nat)
  | setTesting (sender : Nat) (enabled : Bool)
  | setRegistrationFee (sender newFee : Nat)
  | withdrawPlatformFees (sender toAddr : Nat)
  | registerAuthor (sender authorId seed now : Nat)
  | registerWork (sender msgValue contentHash : Nat) (title category : String) (seed now : Nat)
  | requestVerifyWork (sender msgValue workId contentHash requestId now : Nat)
  | verificationCallback (requestId : Nat) (sigOk isMatch : Bool)
  | fileDispute (sender msgValue workId challengerContentHash now : Nat)
  | requestDisputeResolution (sender workId disputeId requestId now : Nat)
  | disputeResolutionCallback (requestId : Nat) (sigOk : Bool) (originalHash challengerHash : Nat)
  | claimVerificationTimeout (sender requestId now : Nat)
  | claimDisputeTimeout (sender workId disputeId now : Nat)
  | withdrawRefund (sender : Nat)
  | testingSimulateVerificationCallback (sender requestId : Nat) (isMatch : Bool)
  | testingSimulateDisputeCallback (sender workId disputeId winner : Nat)
  | markWorkAsVerified (sender workId : Nat)
  | receiveEther

/-- Dispatch of every state-changing external function of the contract. -/
def step (op : Op) (s : State) : Ret :=
  match op with
  | .pauseOp sender => pause s sender
  | .unpauseOp sender => unpause s sender
  | .setTesting sender enabled => setTesting s sender enabled
  | .setRegistrationFee sender newFee => setRegistrationFee s sender newFee
  | .withdrawPlatformFees sender toAddr => withdrawPlatformFees s sender toAddr
  | .registerAuthor sender authorId seed now => registerAuthor s sender authorId seed now
  | .registerWork sender msgValue contentHash title category seed now =>
      registerWork s sender msgValue contentHash title category seed now
  | .requestVerifyWork sender msgValue workId contentHash requestId now =>
      requestVerifyWork s sender msgValue workId contentHash requestId now
  | .verificationCallback requestId sigOk isMatch =>
      verificationCallback s requestId sigOk isMatch
  | .fileDispute sender msgValue workId challengerContentHash now =>
      fileDispute s sender msgValue workId challengerContentHash now
  | .requestDisputeResolution sender workId disputeId requestId now =>
      requestDisputeResolution s sender workId disputeId requestId now
  | .disputeResolutionCallback requestId sigOk originalHash challengerHash =>
      disputeResolutionCallback s requestId sigOk originalHash challengerHash
  | .claimVerificationTimeout sender requestId now =>
      claimVerificationTimeout s sender requestId now
  | .claimDisputeTimeout sender workId disputeId now =>
      claimDisputeTimeout s sender workId disputeId now
  | .withdrawRefund sender => withdrawRefund s sender
  | .testingSimulateVerificationCallback sender requestId isMatch =>
      testingSimulateVerificationCallback s sender requestId isMatch
  | .testingSimulateDisputeCallback sender workId disputeId winner =>
      testingSimulateDisputeCallback s sender workId disputeId winner
  | .markWorkAsVerified sender workId => markWorkAsVerified s sender workId
  | .receiveEther => .ok (s, [])

-- ============ Concrete states for witnesses ============

/-- A concrete reachable-shaped state: work 1 registered by account 3 at
time 100; accounts 3 and 5 registered authors; verification request 1
by account 5 with deposit 100 at time 0; one dispute on work 1 by
account 5 (deposit DISPUTE_DEPOSIT, filed at 200) whose resolution was
requested at 300 under oracle request id 77; account 5 has a pending
refund balance of 250. -/
def exState : State :=
  { owner := 9
    workCounter := 1
    registrationFee := MIN_REGISTRATION_FEE
    paused := false
    isTesting := false
    platformFees := 10
    works := fun w => if w = 1 then { OriginalWork.zero with registrant := 3, timestamp := 100 } else OriginalWork.zero
    disputes := fun w => if w = 1 then [⟨5, 42, 200, DISPUTE_DEPOSIT, false, 0, 77, 300⟩] else []
    authors := fun a =>
      if a = 3 ∨ a = 5 then { AuthorProfile.zero with registered := true } else AuthorProfile.zero
    authorWorks := fun _ => []
    verificationRequests := fun i =>
      if i = 1 then ⟨5, 1, 1, 100, 0, false, false⟩ else VerificationRequest.zero
    pendingDecryptions := fun i =>
      if i = 77 then ⟨1, 0, DecryptionType.DisputeResolution, 5, 300⟩ else PendingDecryption.zero
    pendingRefunds := fun a => if a = 5 then 250 else 0
    verificationRequestCounter := 1
    locked := false }

-- ============ Claim C4 ============

/-- C4: for a verification request whose original requester calls
claimVerificationTimeout while the request is neither completed nor
refunded, the call succeeds iff now strictly exceeds requestTimestamp +
VERIFICATION_TIMEOUT, failing with TimeoutNotReached at any earlier or
equal time; on success the request is marked refunded and the deposit is
transferred directly to the caller (escrow balances unchanged); any
caller other than the requester fails with NotRequester. -/
theorem claimVerificationTimeout_requester_iff_timeout
    (s : State) (sender requestId now : Nat)
    (hl : s.locked = false)
    (hreq : (s.verificationRequests requestId).requester = sender)
    (hc : (s.verificationRequests requestId).completed = false)
    (hf : (s.verificationRequests requestId).refunded = false) :
    ((claimVerificationTimeout s sender requestId now).isOk = true ↔
      (s.verificationRequests requestId).requestTimestamp + VERIFICATION_TIMEOUT < now)
  ∧ (¬ (s.verificationRequests requestId).requestTimestamp + VERIFICATION_TIMEOUT < now →
      claimVerificationTimeout s sender requestId now = .error .TimeoutNotReached)
  ∧ (∀ s' calls, claimVerificationTimeout s sender requestId now = .ok (s', calls) →
        (s'.verificationRequests requestId).refunded = true
      ∧ s'.pendingRefunds = s.pendingRefunds
      ∧ calls.map (fun c => (c.toAddr, c.amount)) =
          (if 0 < (s.verificationRequests requestId).depositAmount then
            [(sender, (s.verificationRequests requestId).depositAmount)] else []))
  ∧ (∀ other, other ≠ (s.verificationRequests requestId).requester →
      claimVerificationTimeout s other requestId now = .error .NotRequester) := by
  unfold claimVerificationTimeout
  simp only [hl, if_false, Bool.false_eq_true]
  constructor
  · by_cases ht : (s.verificationRequests requestId).requestTimestamp + VERIFICATION_TIMEOUT < now <;>
      simp [hreq, hc, hf, ht, upd, Except.isOk, Except.toBool]
  constructor
  · intro ht
    simp [hreq, hc, hf, ht]
  constructor
  · intro s' calls h
    by_cases ht : (s.verificationRequests requestId).requestTimestamp + VERIFICATION_TIMEOUT < now
    · simp [hreq, hc, hf, ht] at h
      obtain ⟨hs', hcalls⟩ := h
      subst hs'
      refine ⟨by simp [upd], by rfl, ?_⟩
      subst hcalls
      by_cases hd : 0 < (s.verificationRequests requestId).depositAmount <;> simp [hd]
    · simp [hreq, hc, hf, ht] at h
  · intro other hother
    have hne : (s.verificationRequests requestId).requester ≠ other := fun h => hother h.symm
    simp [hne]

/-- Witness for C4: in the concrete state exState, request 1 belongs to
account 5, is unfinalized, and the theorem applies. -/
theorem claimVerificationTimeout_requester_iff_timeout_witness :
    ((claimVerificationTimeout exState 5 1 3601).isOk = true ↔
      (exState.verificationRequests 1).requestTimestamp + VERIFICATION_TIMEOUT < 3601)
  ∧ (¬ (exState.verificationRequests 1).requestTimestamp + VERIFICATION_TIMEOUT < 3601 →
      claimVerificationTimeout exState 5 1 3601 = .error .TimeoutNotReached)
  ∧ (∀ s' calls, claimVerificationTimeout exState 5 1 3601 = .ok (s', calls) →
        (s'.verificationRequests 1).refunded = true
      ∧ s'.pendingRefunds = exState.pendingRefunds
      ∧ calls.map (fun c => (c.toAddr, c.amount)) =
          (if 0 < (exState.verificationRequests 1).depositAmount then
            [(5, (exState.verificationRequests 1).depositAmount)] else []))
  ∧ (∀ other, other ≠ (exState.verificationRequests 1).requester →
      claimVerificationTimeout exState other 1 3601 = .error .NotRequester) :=
  claimVerificationTimeout_requester_iff_timeout exState 5 1 3601 rfl rfl rfl rfl

-- ============ Claim C5 ============

/-- C5: verificationCallback with a valid proof on a request still in
state Requested (neither completed nor refunded) succeeds, marks the
request completed, sets the target work verified exactly when the
decoded result is a match (other works and the non-match case keep
their verified flag), and unconditionally credits the requester escrow
(pendingRefunds) with the full deposit, regardless of the match
result. -/
theorem verificationCallback_requested_effects
    (s : State) (requestId : Nat) (isMatch : Bool)
    (hc : (s.verificationRequests requestId).completed = false)
    (_hf : (s.verificationRequests requestId).refunded = false) :
    ((verificationCallback s requestId true isMatch).isOk = true)
  ∧ (∀ s' calls, verificationCallback s requestId true isMatch = .ok (s', calls) →
        calls = []
      ∧ (s'.verificationRequests requestId).completed = true
      ∧ (∀ w, (s'.works w).verified =
          (if isMatch = true ∧ w = (s.verificationRequests requestId).workId then true
           else (s.works w).verified))
      ∧ s'.pendingRefunds (s.verificationRequests requestId).requester
          = s.pendingRefunds (s.verificationRequests requestId).requester
            + (s.verificationRequests requestId).depositAmount
      ∧ (∀ a, a ≠ (s.verificationRequests requestId).requester →
          s'.pendingRefunds a = s.pendingRefunds a)) := by
  constructor
  · by_cases hd : 0 < (s.verificationRequests requestId).depositAmount <;>
      cases isMatch <;>
        simp [verificationCallback, hc, hd, Except.isOk, Except.toBool]
  · intro s' calls h
    by_cases hd : 0 < (s.verificationRequests requestId).depositAmount
    · cases isMatch
      · simp [verificationCallback, hc, hd] at h
        obtain ⟨hs', hcalls⟩ := h
        subst hs'
        refine ⟨by simp [hcalls], by simp [upd], ?_, by simp [upd], ?_⟩
        · intro w
          simp [upd]
        · intro a ha
          simp [upd, ha]
      · simp [verificationCallback, hc, hd] at h
        obtain ⟨hs', hcalls⟩ := h
        subst hs'
        refine ⟨by simp [hcalls], by simp [upd], ?_, by simp [upd], ?_⟩
        · intro w
          by_cases hw : w = (s.verificationRequests requestId).workId <;> simp [hw, upd]
        · intro a ha
          simp [upd, ha]
    · cases isMatch
      · simp [verificationCallback, hc, hd] at h
        obtain ⟨hs', hcalls⟩ := h
        subst hs'
        refine ⟨by simp [hcalls], by simp [upd], ?_, by simp [Nat.eq_zero_of_not_pos hd], ?_⟩
        · intro w
          simp [upd]
        · intro a ha
          simp [upd, ha]
      · simp [verificationCallback, hc, hd] at h
        obtain ⟨hs', hcalls⟩ := h
        subst hs'
        refine ⟨by simp [hcalls], by simp [upd], ?_, by simp [Nat.eq_zero_of_not_pos hd], ?_⟩
        · intro w
          by_cases hw : w = (s.verificationRequests requestId).workId <;> simp [hw, upd]
        · intro a ha
          simp [upd, ha]

/-- Witness for C5: in exState, request 1 is in state Requested, the
callback with a matching result completes it and credits the deposit. -/
theorem verificationCallback_requested_effects_witness :
    ((verificationCallback exState 1 true true).isOk = true)
  ∧ (∀ s' calls, verificationCallback exState 1 true true = .ok (s', calls) →
        calls = []
      ∧ (s'.verificationRequests 1).completed = true
      ∧ (∀ w, (s'.works w).verified =
          (if true = true ∧ w = (exState.verificationRequests 1).workId then true
           else (exState.works w).verified))
      ∧ s'.pendingRefunds (exState.verificationRequests 1).requester
          = exState.pendingRefunds (exState.verificationRequests 1).requester
            + (exState.verificationRequests 1).depositAmount
      ∧ (∀ a, a ≠ (exState.verificationRequests 1).requester →
          s'.pendingRefunds a = exState.pendingRefunds a)) :=
  verificationCallback_requested_effects exState 1 true rfl rfl

-- ============ Claim C1 ============

/-- State after a successful claimVerificationTimeout for request 1 of
exState at time 3700 (past the one hour timeout). -/
def c1Mid : State :=
  match claimVerificationTimeout exState 5 1 3700 with
  | .ok r => r.1
  | .error _ => exState

/-- C1 at the failing input: from exState (request 1, deposit 100,
requester 5, pending balance 250), claimVerificationTimeout succeeds at
time 3700 and pays the 100 wei deposit directly; the request is then
refunded but not completed, and a subsequent verificationCallback with a
valid proof still succeeds — it checks only the completed flag — so the
requester escrow rises from 250 to 350 and both terminal flags end true.
The deposit is paid twice and the completed/refunded exclusivity the
claim states is violated. -/
theorem verification_timeout_then_callback_pays_twice :
    ((claimVerificationTimeout exState 5 1 3700).map
        (fun r => r.2.map (fun c => (c.toAddr, c.amount))) = .ok [(5, 100)])
  ∧ (c1Mid.verificationRequests 1).refunded = true
  ∧ (c1Mid.verificationRequests 1).completed = false
  ∧ c1Mid.pendingRefunds 5 = 250
  ∧ ((verificationCallback c1Mid 1 true false).map
        (fun r => (r.1.pendingRefunds 5,
                   (r.1.verificationRequests 1).completed,
                   (r.1.verificationRequests 1).refunded))
      = .ok (350, true, true)) := by
  refine ⟨?_, ?_, ?_, ?_, ?_⟩ <;> rfl

-- ============ Claim C2 ============

/-- C2: disputeResolutionCallback with a valid proof on an unresolved
dispute succeeds and resolves it with the winner given exactly by: if
the two decrypted values differ the registrant wins; if they are equal
the earlier timestamp wins, ties (work.timestamp <= dispute.timestamp)
going to the registrant.  The challenger wonDisputes counter is
incremented exactly when the challenger wins, the winner escrow
(pendingRefunds) is credited with the dispute deposit, and the dispute
is marked resolved with the winner recorded. -/
theorem disputeResolutionCallback_winner_policy
    (s : State) (requestId originalHash challengerHash : Nat)
    (hl : s.locked = false)
    (hty : (s.pendingDecryptions requestId).decryptionType = DecryptionType.DisputeResolution)
    (workId disputeId : Nat)
    (hwid : workId = (s.pendingDecryptions requestId).workId)
    (hdid : disputeId = (s.pendingDecryptions requestId).disputeId)
    (dispute : DisputeRecord)
    (hd : (s.disputes workId)[disputeId]? = some dispute)
    (hres : dispute.resolved = false)
    (winner : Nat)
    (hwin : winner =
      (if originalHash ≠ challengerHash then (s.works workId).registrant
       else if (s.works workId).timestamp ≤ dispute.timestamp then (s.works workId).registrant
       else dispute.challenger)) :
    ((disputeResolutionCallback s requestId true originalHash challengerHash).isOk = true)
  ∧ (∀ s' calls,
      disputeResolutionCallback s requestId true originalHash challengerHash = .ok (s', calls) →
        calls = []
      ∧ s'.disputes workId =
          (s.disputes workId).set disputeId { dispute with resolved := true, winner := winner }
      ∧ (∀ w, w ≠ workId → s'.disputes w = s.disputes w)
      ∧ s'.pendingRefunds winner = s.pendingRefunds winner + dispute.depositAmount
      ∧ (∀ a, a ≠ winner → s'.pendingRefunds a = s.pendingRefunds a)
      ∧ (s'.authors dispute.challenger).wonDisputes
          = (s.authors dispute.challenger).wonDisputes
            + (if originalHash = challengerHash
                  ∧ ¬ (s.works workId).timestamp ≤ dispute.timestamp then 1 else 0)
      ∧ (∀ a, a ≠ dispute.challenger → s'.authors a = s.authors a)) := by
  subst hwid
  subst hdid
  subst hwin
  constructor
  · by_cases heq : originalHash = challengerHash <;>
      by_cases hts : (s.works (s.pendingDecryptions requestId).workId).timestamp ≤ dispute.timestamp <;>
        by_cases hpz : 0 < dispute.depositAmount <;>
          simp [disputeResolutionCallback, hl, hty, hd, hres, heq, hts, hpz,
                Except.isOk, Except.toBool]
  · intro s' calls h
    by_cases heq : originalHash = challengerHash <;>
      by_cases hts : (s.works (s.pendingDecryptions requestId).workId).timestamp ≤ dispute.timestamp <;>
        by_cases hpz : 0 < dispute.depositAmount <;>
          (simp [disputeResolutionCallback, hl, hty, hd, hres, heq, hts, hpz] at h
           obtain ⟨hs', hcalls⟩ := h
           subst hs'
           refine ⟨hcalls, by simp [upd, heq, hts], fun w hw => by simp [upd, hw],
                   ?_, fun a ha => by simp [heq, hts] at ha; simp [upd, ha],
                   by simp [upd, heq, hts], fun a ha => by simp [upd, heq, hts, ha]⟩)
    all_goals simp [upd, heq, hts] <;> omega

/-- Witness for C2: in exState, oracle request 77 points at the dispute
on work 1 filed by account 5; equal values with work timestamp 100 and
dispute timestamp 200 make the registrant (account 3) the winner. -/
theorem disputeResolutionCallback_winner_policy_witness :
    ((disputeResolutionCallback exState 77 true 42 42).isOk = true)
  ∧ (∀ s' calls,
      disputeResolutionCallback exState 77 true 42 42 = .ok (s', calls) →
        calls = []
      ∧ s'.disputes 1 =
          (exState.disputes 1).set 0
            { (⟨5, 42, 200, DISPUTE_DEPOSIT, false, 0, 77, 300⟩ : DisputeRecord) with
                resolved := true, winner := 3 }
      ∧ (∀ w, w ≠ 1 → s'.disputes w = exState.disputes w)
      ∧ s'.pendingRefunds 3 = exState.pendingRefunds 3 + DISPUTE_DEPOSIT
      ∧ (∀ a, a ≠ 3 → s'.pendingRefunds a = exState.pendingRefunds a)
      ∧ (s'.authors 5).wonDisputes
          = (exState.authors 5).wonDisputes
            + (if (42 : Nat) = 42 ∧ ¬ (exState.works 1).timestamp ≤ 200 then 1 else 0)
      ∧ (∀ a, a ≠ 5 → s'.authors a = exState.authors a)) :=
  disputeResolutionCallback_winner_policy exState 77 42 42 rfl rfl 1 0 rfl rfl
    ⟨5, 42, 200, DISPUTE_DEPOSIT, false, 0, 77, 300⟩ rfl rfl 3 (by decide)

-- ============ Claim C3 ============

/-- C3 counterexample: in exState the dispute on work 1 is in state
ResolutionRequested (stored oracle request id 77, not resolved), yet a
repeated requestDisputeResolution by the challenger succeeds instead of
failing with AlreadyResolved as the claim states. -/
theorem requestDisputeResolution_rerequest_succeeds :
    ((exState.disputes 1).getD 0 ⟨0, 0, 0, 0, false, 0, 0, 0⟩).decryptionRequestId = 77
  ∧ ((exState.disputes 1).getD 0 ⟨0, 0, 0, 0, false, 0, 0, 0⟩).resolved = false
  ∧ (requestDisputeResolution exState 5 1 0 78 400).isOk = true := by
  exact ⟨rfl, rfl, by decide⟩

/-- C3 amended: in an unpaused state, requestDisputeResolution on an
existing dispute succeeds exactly when the work id is valid, the
dispute is not yet resolved, and the caller is the challenger or the
registrant — a dispute already in ResolutionRequested can be
re-requested, overwriting the stored oracle request id and timestamp;
AlreadyResolved is raised only for resolved disputes, a caller who is
neither party fails with NotAuthorized, and a missing dispute index
fails with InvalidDisputeId. -/
theorem requestDisputeResolution_conditions
    (s : State) (sender workId disputeId requestId now : Nat)
    (hp : s.paused = false)
    (dispute : DisputeRecord)
    (hd : (s.disputes workId)[disputeId]? = some dispute) :
    ((requestDisputeResolution s sender workId disputeId requestId now).isOk = true ↔
       (0 < workId ∧ workId ≤ s.workCounter)
     ∧ dispute.resolved = false
     ∧ (sender = dispute.challenger ∨ sender = (s.works workId).registrant))
  ∧ ((0 < workId ∧ workId ≤ s.workCounter) → dispute.resolved = true →
      requestDisputeResolution s sender workId disputeId requestId now
        = .error .DisputeAlreadyResolved)
  ∧ ((0 < workId ∧ workId ≤ s.workCounter) → dispute.resolved = false →
      ¬ (sender = dispute.challenger ∨ sender = (s.works workId).registrant) →
      requestDisputeResolution s sender workId disputeId requestId now
        = .error .NotAuthorized)
  ∧ (∀ j, (0 < workId ∧ workId ≤ s.workCounter) → (s.disputes workId)[j]? = none →
      requestDisputeResolution s sender workId j requestId now = .error .InvalidDisputeId)
  ∧ (∀ s2 calls,
      requestDisputeResolution s sender workId disputeId requestId now = .ok (s2, calls) →
        calls = []
      ∧ s2.disputes workId = (s.disputes workId).set disputeId
          { dispute with decryptionRequestId := requestId, requestTimestamp := now }
      ∧ s2.pendingDecryptions requestId
          = ⟨workId, disputeId, DecryptionType.DisputeResolution, sender, now⟩) := by
  refine ⟨?_, ?_, ?_, ?_, ?_⟩
  · by_cases h1 : 0 < workId ∧ workId ≤ s.workCounter <;>
      by_cases h3 : dispute.resolved = true <;>
        by_cases h4 : sender = dispute.challenger <;>
          by_cases h5 : sender = (s.works workId).registrant <;>
            simp [requestDisputeResolution, hp, hd, h1, h3, h4, h5,
                  Except.isOk, Except.toBool]
  · intro h1 h3
    simp [requestDisputeResolution, hp, hd, h1, h3]
  · intro h1 h3 h45
    push_neg at h45
    simp [requestDisputeResolution, hp, hd, h1, h3, h45.1, h45.2]
  · intro j h1 hj
    simp [requestDisputeResolution, hp, h1, hj]
  · intro s2 calls h
    by_cases h1 : 0 < workId ∧ workId ≤ s.workCounter <;>
      by_cases h3 : dispute.resolved = true <;>
        by_cases h4 : sender = dispute.challenger <;>
          by_cases h5 : sender = (s.works workId).registrant <;>
            simp [requestDisputeResolution, hp, hd, h1, h3, h4, h5] at h <;>
              (obtain ⟨hs2, hcalls⟩ := h
               subst hs2
               have h3x : dispute.resolved = false := by simpa using h3
               exact ⟨hcalls, by simp [upd, h3x], by simp [upd, h4, h5]⟩)

/-- Witness for C3 amended: exState is unpaused, dispute 0 on work 1
exists and is unresolved, and the challenger (account 5) may re-request
resolution. -/
theorem requestDisputeResolution_conditions_witness :
    ((requestDisputeResolution exState 5 1 0 78 400).isOk = true ↔
       (0 < 1 ∧ 1 ≤ exState.workCounter)
     ∧ (⟨5, 42, 200, DISPUTE_DEPOSIT, false, 0, 77, 300⟩ : DisputeRecord).resolved = false
     ∧ (5 = (⟨5, 42, 200, DISPUTE_DEPOSIT, false, 0, 77, 300⟩ : DisputeRecord).challenger
        ∨ 5 = (exState.works 1).registrant))
  ∧ ((0 < 1 ∧ 1 ≤ exState.workCounter) →
      (⟨5, 42, 200, DISPUTE_DEPOSIT, false, 0, 77, 300⟩ : DisputeRecord).resolved = true →
      requestDisputeResolution exState 5 1 0 78 400 = .error .DisputeAlreadyResolved)
  ∧ ((0 < 1 ∧ 1 ≤ exState.workCounter) →
      (⟨5, 42, 200, DISPUTE_DEPOSIT, false, 0, 77, 300⟩ : DisputeRecord).resolved = false →
      ¬ (5 = (⟨5, 42, 200, DISPUTE_DEPOSIT, false, 0, 77, 300⟩ : DisputeRecord).challenger
         ∨ 5 = (exState.works 1).registrant) →
      requestDisputeResolution exState 5 1 0 78 400 = .error .NotAuthorized)
  ∧ (∀ j, (0 < 1 ∧ 1 ≤ exState.workCounter) → (exState.disputes 1)[j]? = none →
      requestDisputeResolution exState 5 1 j 78 400 = .error .InvalidDisputeId)
  ∧ (∀ s2 calls,
      requestDisputeResolution exState 5 1 0 78 400 = .ok (s2, calls) →
        calls = []
      ∧ s2.disputes 1 = (exState.disputes 1).set 0
          { (⟨5, 42, 200, DISPUTE_DEPOSIT, false, 0, 77, 300⟩ : DisputeRecord) with
              decryptionRequestId := 78, requestTimestamp := 400 }
      ∧ s2.pendingDecryptions 78
          = ⟨1, 0, DecryptionType.DisputeResolution, 5, 400⟩) :=
  requestDisputeResolution_conditions exState 5 1 0 78 400 rfl
    ⟨5, 42, 200, DISPUTE_DEPOSIT, false, 0, 77, 300⟩ rfl

-- ============ Claim C6 ============

/-- C6: in an unpaused state, fileDispute succeeds exactly when the work
id is valid, the caller is a registered author, the deposit reaches
DISPUTE_DEPOSIT, the challenger fingerprint is non-zero, the caller is
not the registrant, and the dispute count is below
MAX_DISPUTES_PER_WORK; a self-dispute under the other preconditions
fails with CannotDisputeOwnWork (SelfDispute) and a full dispute list
with TooManyDisputes; on success a fresh unresolved dispute record is
appended, the dispute count and disputed flag are updated, and both
parties totalDisputes counters are incremented. -/
theorem fileDispute_conditions_and_effects
    (s : State) (sender msgValue workId challengerContentHash now : Nat)
    (hp : s.paused = false) :
    ((fileDispute s sender msgValue workId challengerContentHash now).isOk = true ↔
       (0 < workId ∧ workId ≤ s.workCounter)
     ∧ (s.authors sender).registered = true
     ∧ DISPUTE_DEPOSIT ≤ msgValue
     ∧ 0 < challengerContentHash
     ∧ (s.works workId).registrant ≠ sender
     ∧ (s.works workId).disputeCount < MAX_DISPUTES_PER_WORK)
  ∧ (((0 < workId ∧ workId ≤ s.workCounter) ∧ (s.authors sender).registered = true
      ∧ DISPUTE_DEPOSIT ≤ msgValue ∧ 0 < challengerContentHash
      ∧ (s.works workId).registrant = sender) →
      fileDispute s sender msgValue workId challengerContentHash now
        = .error .CannotDisputeOwnWork)
  ∧ (((0 < workId ∧ workId ≤ s.workCounter) ∧ (s.authors sender).registered = true
      ∧ DISPUTE_DEPOSIT ≤ msgValue ∧ 0 < challengerContentHash
      ∧ (s.works workId).registrant ≠ sender
      ∧ ¬ (s.works workId).disputeCount < MAX_DISPUTES_PER_WORK) →
      fileDispute s sender msgValue workId challengerContentHash now
        = .error .MaxDisputesReached)
  ∧ (∀ s2 calls, fileDispute s sender msgValue workId challengerContentHash now = .ok (s2, calls) →
        calls = []
      ∧ s2.disputes workId = s.disputes workId ++
          [⟨sender, challengerContentHash, now, msgValue, false, 0, 0, 0⟩]
      ∧ (s2.works workId).disputeCount = (s.works workId).disputeCount + 1
      ∧ (s2.works workId).disputed = true
      ∧ (s2.authors sender).totalDisputes = (s.authors sender).totalDisputes + 1
      ∧ (s2.authors (s.works workId).registrant).totalDisputes
          = (s.authors (s.works workId).registrant).totalDisputes + 1) := by
  refine ⟨?_, ?_, ?_, ?_⟩
  · by_cases h1 : 0 < workId ∧ workId ≤ s.workCounter <;>
      by_cases h2 : (s.authors sender).registered = true <;>
        by_cases h3 : DISPUTE_DEPOSIT ≤ msgValue <;>
          by_cases h4 : 0 < challengerContentHash <;>
            by_cases h5 : (s.works workId).registrant = sender <;>
              by_cases h6 : (s.works workId).disputeCount < MAX_DISPUTES_PER_WORK <;>
                simp [fileDispute, hp, h1, h2, h3, h4, h5, h6, Except.isOk, Except.toBool]
  · rintro ⟨h1, h2, h3, h4, h5⟩
    simp [fileDispute, hp, h1, h2, h3, h4, h5]
  · rintro ⟨h1, h2, h3, h4, h5, h6⟩
    simp [fileDispute, hp, h1, h2, h3, h4, h5, h6]
  · intro s2 calls h
    by_cases h1 : 0 < workId ∧ workId ≤ s.workCounter <;>
      by_cases h2 : (s.authors sender).registered = true <;>
        by_cases h3 : DISPUTE_DEPOSIT ≤ msgValue <;>
          by_cases h4 : 0 < challengerContentHash <;>
            by_cases h5 : (s.works workId).registrant = sender <;>
              by_cases h6 : (s.works workId).disputeCount < MAX_DISPUTES_PER_WORK <;>
                simp [fileDispute, hp, h1, h2, h3, h4, h5, h6] at h
    obtain ⟨hs2, hcalls⟩ := h
    subst hs2
    refine ⟨hcalls, by simp [upd], by simp [upd], by simp [upd], ?_, ?_⟩
    · have hne : (s.works workId).registrant ≠ sender := h5
      simp [upd, Ne.symm hne]
    · simp [upd, h5]

/-- Witness for C6: exState is unpaused and account 5 can file a dispute
against work 1 owned by account 3. -/
theorem fileDispute_conditions_and_effects_witness :
    ((fileDispute exState 5 DISPUTE_DEPOSIT 1 42 200).isOk = true ↔
       (0 < 1 ∧ 1 ≤ exState.workCounter)
     ∧ (exState.authors 5).registered = true
     ∧ DISPUTE_DEPOSIT ≤ DISPUTE_DEPOSIT
     ∧ 0 < 42
     ∧ (exState.works 1).registrant ≠ 5
     ∧ (exState.works 1).disputeCount < MAX_DISPUTES_PER_WORK)
  ∧ (((0 < 1 ∧ 1 ≤ exState.workCounter) ∧ (exState.authors 5).registered = true
      ∧ DISPUTE_DEPOSIT ≤ DISPUTE_DEPOSIT ∧ 0 < 42
      ∧ (exState.works 1).registrant = 5) →
      fileDispute exState 5 DISPUTE_DEPOSIT 1 42 200 = .error .CannotDisputeOwnWork)
  ∧ (((0 < 1 ∧ 1 ≤ exState.workCounter) ∧ (exState.authors 5).registered = true
      ∧ DISPUTE_DEPOSIT ≤ DISPUTE_DEPOSIT ∧ 0 < 42
      ∧ (exState.works 1).registrant ≠ 5
      ∧ ¬ (exState.works 1).disputeCount < MAX_DISPUTES_PER_WORK) →
      fileDispute exState 5 DISPUTE_DEPOSIT 1 42 200 = .error .MaxDisputesReached)
  ∧ (∀ s2 calls, fileDispute exState 5 DISPUTE_DEPOSIT 1 42 200 = .ok (s2, calls) →
        calls = []
      ∧ s2.disputes 1 = exState.disputes 1 ++
          [⟨5, 42, 200, DISPUTE_DEPOSIT, false, 0, 0, 0⟩]
      ∧ (s2.works 1).disputeCount = (exState.works 1).disputeCount + 1
      ∧ (s2.works 1).disputed = true
      ∧ (s2.authors 5).totalDisputes = (exState.authors 5).totalDisputes + 1
      ∧ (s2.authors (exState.works 1).registrant).totalDisputes
          = (exState.authors (exState.works 1).registrant).totalDisputes + 1) :=
  fileDispute_conditions_and_effects exState 5 DISPUTE_DEPOSIT 1 42 200 rfl

-- ============ Claim C9 ============

/-- C9: the escrow credit paid out by disputeResolutionCallback always
equals the deposit stored in the dispute record, whichever party wins
— so a winning challenger merely recovers the stake they posted in
fileDispute (which records depositAmount = the sent value), while a
winning registrant, who staked nothing, gains that deposit. -/
theorem dispute_prize_is_challenger_stake
    (s : State) (requestId originalHash challengerHash : Nat)
    (hl : s.locked = false)
    (hty : (s.pendingDecryptions requestId).decryptionType = DecryptionType.DisputeResolution)
    (workId disputeId : Nat)
    (hwid : workId = (s.pendingDecryptions requestId).workId)
    (hdid : disputeId = (s.pendingDecryptions requestId).disputeId)
    (dispute : DisputeRecord)
    (hd : (s.disputes workId)[disputeId]? = some dispute)
    (hres : dispute.resolved = false) :
    (∀ s2 calls,
      disputeResolutionCallback s requestId true originalHash challengerHash = .ok (s2, calls) →
      ∃ winner,
        (winner = dispute.challenger ∨ winner = (s.works workId).registrant)
      ∧ (∀ a, s2.pendingRefunds a
            = s.pendingRefunds a + (if a = winner then dispute.depositAmount else 0)))
  ∧ (∀ sender msgValue wid chHash now s2 calls,
      fileDispute s sender msgValue wid chHash now = .ok (s2, calls) →
      ∃ rec, s2.disputes wid = s.disputes wid ++ [rec]
        ∧ rec.challenger = sender ∧ rec.depositAmount = msgValue) := by
  subst hwid
  subst hdid
  constructor
  · intro s2 calls h
    by_cases heq : originalHash = challengerHash <;>
      by_cases hts : (s.works (s.pendingDecryptions requestId).workId).timestamp
          ≤ dispute.timestamp <;>
        by_cases hpz : 0 < dispute.depositAmount <;>
          (simp [disputeResolutionCallback, hl, hty, hd, hres, heq, hts, hpz] at h
           obtain ⟨hs2, hcalls⟩ := h
           subst hs2
           first
             | exact ⟨dispute.challenger, Or.inl rfl,
                 fun a => by
                   by_cases hw : a = dispute.challenger <;> simp [upd, hw] <;> omega⟩
             | exact ⟨(s.works (s.pendingDecryptions requestId).workId).registrant, Or.inr rfl,
                 fun a => by
                   by_cases hw : a = (s.works (s.pendingDecryptions requestId).workId).registrant <;>
                     simp [upd, hw] <;> omega⟩)
  · intro sender msgValue wid chHash now s2 calls h
    by_cases hpause : s.paused = true <;>
      by_cases h1 : 0 < wid ∧ wid ≤ s.workCounter <;>
        by_cases h2 : (s.authors sender).registered = true <;>
          by_cases h3 : DISPUTE_DEPOSIT ≤ msgValue <;>
            by_cases h4 : 0 < chHash <;>
              by_cases h5 : (s.works wid).registrant = sender <;>
                by_cases h6 : (s.works wid).disputeCount < MAX_DISPUTES_PER_WORK <;>
                  simp [fileDispute, hpause, h1, h2, h3, h4, h5, h6] at h
    obtain ⟨hs2, hcalls⟩ := h
    subst hs2
    exact ⟨⟨sender, chHash, now, msgValue, false, 0, 0, 0⟩, by simp [upd], rfl, rfl⟩

/-- Witness for C9: the hypotheses hold in exState for oracle request 77
and the dispute filed by account 5 on work 1. -/
theorem dispute_prize_is_challenger_stake_witness :
    (∀ s2 calls,
      disputeResolutionCallback exState 77 true 42 42 = .ok (s2, calls) →
      ∃ winner,
        (winner = (⟨5, 42, 200, DISPUTE_DEPOSIT, false, 0, 77, 300⟩ : DisputeRecord).challenger
         ∨ winner = (exState.works 1).registrant)
      ∧ (∀ a, s2.pendingRefunds a
            = exState.pendingRefunds a
              + (if a = winner then
                  (⟨5, 42, 200, DISPUTE_DEPOSIT, false, 0, 77, 300⟩ : DisputeRecord).depositAmount
                 else 0)))
  ∧ (∀ sender msgValue wid chHash now s2 calls,
      fileDispute exState sender msgValue wid chHash now = .ok (s2, calls) →
      ∃ rec, s2.disputes wid = exState.disputes wid ++ [rec]
        ∧ rec.challenger = sender ∧ rec.depositAmount = msgValue) :=
  dispute_prize_is_challenger_stake exState 77 42 42 rfl rfl 1 0 rfl rfl
    ⟨5, 42, 200, DISPUTE_DEPOSIT, false, 0, 77, 300⟩ rfl rfl

-- ============ Claim C7 ============

/-- C7: withdrawRefund fails with NoRefundAvailable (the NoBalance error)
iff the caller has a zero pending balance; with a positive balance the
call succeeds, the caller is paid exactly the prior balance, and the
balance is already zero in the state at which the outbound transfer is
issued (zero-before-transfer). -/
theorem withdrawRefund_zero_before_transfer
    (s : State) (sender : Nat) (hl : s.locked = false) :
    (withdrawRefund s sender = .error .NoRefundAvailable ↔ s.pendingRefunds sender = 0)
  ∧ (0 < s.pendingRefunds sender →
      ∃ s' c, withdrawRefund s sender = .ok (s', [c])
        ∧ c.toAddr = sender
        ∧ c.amount = s.pendingRefunds sender
        ∧ c.stateAtCall.pendingRefunds sender = 0
        ∧ s'.pendingRefunds sender = 0
        ∧ (∀ a, a ≠ sender → s'.pendingRefunds a = s.pendingRefunds a)) := by
  unfold withdrawRefund
  simp only [hl, Bool.false_eq_true, if_false, reduceIte]
  constructor
  · by_cases h0 : 0 < s.pendingRefunds sender <;> simp [h0] <;> omega
  · intro hpos
    rw [if_neg (not_not_intro hpos)]
    exact ⟨_, _, rfl, rfl, rfl, by simp [upd], by simp [upd], fun a ha => by simp [upd, ha]⟩

/-- Witness for C7: account 5 holds a pending balance of 250 in exState
and the theorem applies. -/
theorem withdrawRefund_zero_before_transfer_witness :
    (withdrawRefund exState 5 = .error .NoRefundAvailable ↔ exState.pendingRefunds 5 = 0)
  ∧ (0 < exState.pendingRefunds 5 →
      ∃ s' c, withdrawRefund exState 5 = .ok (s', [c])
        ∧ c.toAddr = 5
        ∧ c.amount = exState.pendingRefunds 5
        ∧ c.stateAtCall.pendingRefunds 5 = 0
        ∧ s'.pendingRefunds 5 = 0
        ∧ (∀ a, a ≠ 5 → s'.pendingRefunds a = exState.pendingRefunds a)) :=
  withdrawRefund_zero_before_transfer exState 5 rfl

-- ============ Claim C8 ============

/-- Same state with the pause flag overwritten. -/
def setPaused (b : Bool) (s : State) : State := { s with paused := b }

/-- Transport of a result along setPaused: the pause flag of every state
inside the result is overwritten, nothing else changes. -/
def mapPaused (b : Bool) (r : State × List CallRec) : State × List CallRec :=
  (setPaused b r.1, r.2.map (fun c => ⟨setPaused b c.stateAtCall, c.toAddr, c.amount⟩))

/-- C8: claimVerificationTimeout, claimDisputeTimeout and withdrawRefund
never read the paused flag: running any of them with the flag
overwritten to any value gives the identical outcome (same error, or
same success with the same transfers), transported along setPaused, so
the timeout-recovery and refund-withdrawal paths work while paused. -/
theorem recovery_paths_ignore_pause
    (s : State) (b : Bool) (sender requestId workId disputeId now : Nat) :
    claimVerificationTimeout (setPaused b s) sender requestId now
      = (claimVerificationTimeout s sender requestId now).map (mapPaused b)
  ∧ claimDisputeTimeout (setPaused b s) sender workId disputeId now
      = (claimDisputeTimeout s sender workId disputeId now).map (mapPaused b)
  ∧ withdrawRefund (setPaused b s) sender
      = (withdrawRefund s sender).map (mapPaused b) := by
  refine ⟨?_, ?_, ?_⟩
  · by_cases hl : s.locked = true <;>
      by_cases hr : (s.verificationRequests requestId).requester = sender <;>
        by_cases hc : (s.verificationRequests requestId).completed = true <;>
          by_cases hf : (s.verificationRequests requestId).refunded = true <;>
            by_cases ht : (s.verificationRequests requestId).requestTimestamp
                + VERIFICATION_TIMEOUT < now <;>
              by_cases hdep : 0 < (s.verificationRequests requestId).depositAmount <;>
                simp [claimVerificationTimeout, setPaused, mapPaused, hl, hr, hc, hf, ht, hdep,
                      Except.map]
  · rcases hD : (s.disputes workId)[disputeId]? with _ | d
    · by_cases hl : s.locked = true <;>
        simp [claimDisputeTimeout, setPaused, mapPaused, hl, hD, Except.map]
    · by_cases hl : s.locked = true <;>
        by_cases h1 : d.challenger = sender <;>
          by_cases h2 : d.resolved = true <;>
            by_cases h3 : d.decryptionRequestId = 0 <;>
              by_cases h4 : d.requestTimestamp + DISPUTE_TIMEOUT < now <;>
                by_cases h5 : 0 < d.depositAmount <;>
                  simp [claimDisputeTimeout, setPaused, mapPaused, hl, hD, h1, h2, h3, h4, h5,
                        Except.map]
  · by_cases hl : s.locked = true <;>
      by_cases h0 : 0 < s.pendingRefunds sender <;>
        simp [withdrawRefund, setPaused, mapPaused, hl, h0, Except.map]

-- ============ Claim C10 ============

/-- Same state with every registrationFeeAmount field overwritten by g. -/
def setRegFees (g : Nat → Nat) (s : State) : State :=
  { s with works := fun w => { s.works w with registrationFeeAmount := g w } }

set_option maxHeartbeats 2000000 in
/-- C10: a successful registerWork adds the entire payment (msg.value,
including any excess over the current registrationFee) to platformFees,
records it in the work record, and leaves every pendingRefunds balance
untouched; moreover no external call of the contract lets the recorded
registration payments flow into pendingRefunds: overwriting every
registrationFeeAmount field arbitrarily leaves the escrow outcome of
every operation — error or success — unchanged. -/
theorem registration_payment_never_refunded :
    (∀ s sender msgValue contentHash title category seed now s2 calls,
      registerWork s sender msgValue contentHash title category seed now = .ok (s2, calls) →
        s2.platformFees = s.platformFees + msgValue
      ∧ s2.pendingRefunds = s.pendingRefunds
      ∧ (s2.works (s.workCounter + 1)).registrationFeeAmount = msgValue)
  ∧ (∀ op s g,
      (step op (setRegFees g s)).map (fun r => r.1.pendingRefunds)
        = (step op s).map (fun r => r.1.pendingRefunds)) := by
  constructor
  · intro s sender msgValue contentHash title category seed now s2 calls h
    unfold registerWork at h
    repeat' split at h
    any_goals exact Except.noConfusion h
    simp only [Except.ok.injEq, Prod.mk.injEq] at h
    obtain ⟨hs2, hcalls⟩ := h
    subst hs2
    exact ⟨rfl, rfl, by simp [upd]⟩
  · intro op s g
    cases op with
    | pauseOp sender =>
      by_cases h1 : sender = s.owner <;>
        simp [step, pause, setRegFees, h1, Except.map]
    | unpauseOp sender =>
      by_cases h1 : sender = s.owner <;>
        simp [step, unpause, setRegFees, h1, Except.map]
    | setTesting sender enabled =>
      by_cases h1 : sender = s.owner <;>
        simp [step, setTesting, setRegFees, h1, Except.map]
    | setRegistrationFee sender newFee =>
      by_cases h1 : sender = s.owner <;>
        by_cases h2 : MIN_REGISTRATION_FEE ≤ newFee <;>
          simp [step, setRegistrationFee, setRegFees, h1, h2, Except.map]
    | withdrawPlatformFees sender toAddr =>
      by_cases h1 : sender = s.owner <;>
        by_cases h2 : s.locked = true <;>
          by_cases h3 : 0 < s.platformFees <;>
            by_cases h4 : toAddr = 0 <;>
              simp [step, withdrawPlatformFees, setRegFees, h1, h2, h3, h4, Except.map]
    | registerAuthor sender authorId seed now =>
      by_cases h1 : s.paused = true <;>
        by_cases h2 : (s.authors sender).registered = true <;>
          by_cases h3 : 0 < authorId <;>
            simp [step, registerAuthor, setRegFees, upd, h1, h2, h3, Except.map]
    | registerWork sender msgValue contentHash title category seed now =>
      by_cases h1 : (s.authors sender).registered = true
      case neg => simp [step, registerWork, setRegFees, h1, Except.map]
      by_cases h2 : s.paused = true
      case pos => simp [step, registerWork, setRegFees, h1, h2, Except.map]
      by_cases h3 : 0 < title.utf8ByteSize
      case neg => simp [step, registerWork, setRegFees, h1, h2, h3, Except.map]
      by_cases h4 : title.utf8ByteSize ≤ MAX_TITLE_LENGTH
      case neg => simp [step, registerWork, setRegFees, h1, h2, h3, h4, Except.map]
      by_cases h5 : 0 < category.utf8ByteSize
      case neg => simp [step, registerWork, setRegFees, h1, h2, h3, h4, h5, Except.map]
      by_cases h6 : category.utf8ByteSize ≤ MAX_CATEGORY_LENGTH
      case neg => simp [step, registerWork, setRegFees, h1, h2, h3, h4, h5, h6, Except.map]
      by_cases h7 : s.registrationFee ≤ msgValue
      case neg => simp [step, registerWork, setRegFees, h1, h2, h3, h4, h5, h6, h7, Except.map]
      by_cases h8 : 0 < contentHash
      case neg =>
        simp [step, registerWork, setRegFees, h1, h2, h3, h4, h5, h6, h7, h8, Except.map]
      by_cases h9 : s.workCounter < UINT256_MAX <;>
        simp [step, registerWork, setRegFees, upd, h1, h2, h3, h4, h5, h6, h7, h8, h9,
              Except.map]
    | requestVerifyWork sender msgValue workId contentHash requestId now =>
      by_cases h1 : 0 < workId ∧ workId ≤ s.workCounter
      case neg => simp [step, requestVerifyWork, setRegFees, h1, Except.map]
      by_cases h2 : s.paused = true
      case pos => simp [step, requestVerifyWork, setRegFees, h1, h2, Except.map]
      by_cases h3 : s.locked = true
      case pos => simp [step, requestVerifyWork, setRegFees, h1, h2, h3, Except.map]
      by_cases h4 : MIN_REGISTRATION_FEE ≤ msgValue
      case neg => simp [step, requestVerifyWork, setRegFees, h1, h2, h3, h4, Except.map]
      by_cases h5 : 0 < contentHash
      case neg => simp [step, requestVerifyWork, setRegFees, h1, h2, h3, h4, h5, Except.map]
      by_cases h6 : (s.works workId).registrant = 0 <;>
        simp [step, requestVerifyWork, setRegFees, upd, h1, h2, h3, h4, h5, h6, Except.map]
    | verificationCallback requestId sigOk isMatch =>
      by_cases h1 : sigOk = true
      case neg => simp [step, verificationCallback, setRegFees, h1, Except.map]
      by_cases h2 : (s.verificationRequests requestId).completed = true
      case pos => simp [step, verificationCallback, setRegFees, h1, h2, Except.map]
      by_cases h3 : isMatch = true <;>
        by_cases h4 : 0 < (s.verificationRequests requestId).depositAmount <;>
          simp [step, verificationCallback, setRegFees, upd, h1, h2, h3, h4, Except.map]
    | fileDispute sender msgValue workId challengerContentHash now =>
      by_cases h1 : 0 < workId ∧ workId ≤ s.workCounter
      case neg => simp [step, fileDispute, setRegFees, h1, Except.map]
      by_cases h2 : (s.authors sender).registered = true
      case neg => simp [step, fileDispute, setRegFees, h1, h2, Except.map]
      by_cases h3 : s.paused = true
      case pos => simp [step, fileDispute, setRegFees, h1, h2, h3, Except.map]
      by_cases h4 : DISPUTE_DEPOSIT ≤ msgValue
      case neg => simp [step, fileDispute, setRegFees, h1, h2, h3, h4, Except.map]
      by_cases h5 : 0 < challengerContentHash
      case neg => simp [step, fileDispute, setRegFees, h1, h2, h3, h4, h5, Except.map]
      by_cases h6 : (s.works workId).registrant = sender
      case pos => simp [step, fileDispute, setRegFees, h1, h2, h3, h4, h5, h6, Except.map]
      by_cases h7 : (s.works workId).disputeCount < MAX_DISPUTES_PER_WORK <;>
        simp [step, fileDispute, setRegFees, upd, h1, h2, h3, h4, h5, h6, h7, Except.map]
    | requestDisputeResolution sender workId disputeId requestId now =>
      by_cases h1 : 0 < workId ∧ workId ≤ s.workCounter
      case neg => simp [step, requestDisputeResolution, setRegFees, h1, Except.map]
      by_cases h2 : s.paused = true
      case pos => simp [step, requestDisputeResolution, setRegFees, h1, h2, Except.map]
      rcases hD : (s.disputes workId)[disputeId]? with _ | d
      · simp [step, requestDisputeResolution, setRegFees, h1, h2, hD, Except.map]
      · by_cases h3 : d.resolved = true
        case pos =>
          simp [step, requestDisputeResolution, setRegFees, h1, h2, hD, h3, Except.map]
        by_cases h4 : sender = d.challenger ∨ sender = (s.works workId).registrant <;>
          simp [step, requestDisputeResolution, setRegFees, upd, h1, h2, hD, h3, h4,
                Except.map]
    | disputeResolutionCallback requestId sigOk originalHash challengerHash =>
      by_cases h1 : s.locked = true
      case pos => simp [step, disputeResolutionCallback, setRegFees, h1, Except.map]
      by_cases h2 : sigOk = true
      case neg => simp [step, disputeResolutionCallback, setRegFees, h1, h2, Except.map]
      by_cases h3 : (s.pendingDecryptions requestId).decryptionType
          = DecryptionType.DisputeResolution
      case neg => simp [step, disputeResolutionCallback, setRegFees, h1, h2, h3, Except.map]
      rcases hD : (s.disputes (s.pendingDecryptions requestId).workId)[(s.pendingDecryptions
          requestId).disputeId]? with _ | d
      · simp [step, disputeResolutionCallback, setRegFees, h1, h2, h3, hD, Except.map]
      · by_cases h4 : d.resolved = true
        case pos =>
          simp [step, disputeResolutionCallback, setRegFees, h1, h2, h3, hD, h4, Except.map]
        by_cases h5 : originalHash = challengerHash <;>
          by_cases h6 : (s.works (s.pendingDecryptions requestId).workId).timestamp
              ≤ d.timestamp <;>
            by_cases h7 : 0 < d.depositAmount <;>
              simp [step, disputeResolutionCallback, setRegFees, upd, h1, h2, h3, hD, h4,
                    h5, h6, h7, Except.map]
    | claimVerificationTimeout sender requestId now =>
      by_cases h1 : s.locked = true
      case pos => simp [step, claimVerificationTimeout, setRegFees, h1, Except.map]
      by_cases h2 : (s.verificationRequests requestId).requester = sender
      case neg => simp [step, claimVerificationTimeout, setRegFees, h1, h2, Except.map]
      by_cases h3 : (s.verificationRequests requestId).completed = true
      case pos => simp [step, claimVerificationTimeout, setRegFees, h1, h2, h3, Except.map]
      by_cases h4 : (s.verificationRequests requestId).refunded = true
      case pos =>
        simp [step, claimVerificationTimeout, setRegFees, h1, h2, h3, h4, Except.map]
      by_cases h5 : (s.verificationRequests requestId).requestTimestamp
          + VERIFICATION_TIMEOUT < now <;>
        by_cases h6 : 0 < (s.verificationRequests requestId).depositAmount <;>
          simp [step, claimVerificationTimeout, setRegFees, upd, h1, h2, h3, h4, h5, h6,
                Except.map]
    | claimDisputeTimeout sender workId disputeId now =>
      by_cases h1 : s.locked = true
      case pos => simp [step, claimDisputeTimeout, setRegFees, h1, Except.map]
      rcases hD : (s.disputes workId)[disputeId]? with _ | d
      · simp [step, claimDisputeTimeout, setRegFees, h1, hD, Except.map]
      · by_cases h2 : d.challenger = sender <;>
          by_cases h3 : d.resolved = true <;>
            by_cases h4 : d.decryptionRequestId = 0 <;>
              by_cases h5 : d.requestTimestamp + DISPUTE_TIMEOUT < now <;>
                by_cases h6 : 0 < d.depositAmount <;>
                  simp [step, claimDisputeTimeout, setRegFees, upd, h1, hD, h2, h3, h4, h5,
                        h6, Except.map]
    | withdrawRefund sender =>
      by_cases h1 : s.locked = true
      case pos => simp [step, withdrawRefund, setRegFees, h1, Except.map]
      by_cases h2 : 0 < s.pendingRefunds sender <;>
        simp [step, withdrawRefund, setRegFees, upd, h1, h2, Except.map]
    | testingSimulateVerificationCallback sender requestId isMatch =>
      by_cases h1 : sender = s.owner
      case neg => simp [step, testingSimulateVerificationCallback, setRegFees, h1, Except.map]
      by_cases h2 : s.isTesting = true
      case neg =>
        simp [step, testingSimulateVerificationCallback, setRegFees, h1, h2, Except.map]
      by_cases h3 : (s.verificationRequests requestId).completed = true
      case pos =>
        simp [step, testingSimulateVerificationCallback, setRegFees, h1, h2, h3, Except.map]
      by_cases h4 : isMatch = true <;>
        by_cases h5 : 0 < (s.verificationRequests requestId).depositAmount <;>
          simp [step, testingSimulateVerificationCallback, setRegFees, upd, h1, h2, h3, h4,
                h5, Except.map]
    | testingSimulateDisputeCallback sender workId disputeId winner =>
      by_cases h1 : sender = s.owner
      case neg => simp [step, testingSimulateDisputeCallback, setRegFees, h1, Except.map]
      by_cases h2 : s.isTesting = true
      case neg => simp [step, testingSimulateDisputeCallback, setRegFees, h1, h2, Except.map]
      rcases hD : (s.disputes workId)[disputeId]? with _ | d
      · simp [step, testingSimulateDisputeCallback, setRegFees, h1, h2, hD, Except.map]
      · by_cases h3 : d.resolved = true <;>
          by_cases h4 : 0 < d.depositAmount <;>
            simp [step, testingSimulateDisputeCallback, setRegFees, upd, h1, h2, hD, h3, h4,
                  Except.map]
    | markWorkAsVerified sender workId =>
      by_cases h1 : sender = s.owner <;>
        by_cases h2 : 0 < workId ∧ workId ≤ s.workCounter <;>
          simp [step, markWorkAsVerified, setRegFees, upd, h1, h2, Except.map]
    | receiveEther =>
      simp [step, setRegFees, Except.map]

/-- Witness for C10: concrete successful registration from exState, with
a payment of twice the fee, plus a concrete noninterference instance. -/
theorem registration_payment_never_refunded_witness :
    (∀ s2 calls,
      registerWork exState 5 (2 * MIN_REGISTRATION_FEE) 7 "t" "c" 0 400 = .ok (s2, calls) →
        s2.platformFees = exState.platformFees + 2 * MIN_REGISTRATION_FEE
      ∧ s2.pendingRefunds = exState.pendingRefunds
      ∧ (s2.works (exState.workCounter + 1)).registrationFeeAmount
          = 2 * MIN_REGISTRATION_FEE)
  ∧ ((step (Op.withdrawRefund 5) (setRegFees (fun _ => 0) exState)).map
        (fun r => r.1.pendingRefunds)
      = (step (Op.withdrawRefund 5) exState).map (fun r => r.1.pendingRefunds)) :=
  ⟨fun s2 calls h =>
      registration_payment_never_refunded.1 exState 5 (2 * MIN_REGISTRATION_FEE)
        7 "t" "c" 0 400 s2 calls h,
   registration_payment_never_refunded.2 (Op.withdrawRefund 5) exState (fun _ => 0)⟩

end AnonymousCopyrightV2
